import Mathlib

/-!
# Verification of the gold-premium dashboard (src/app.py)

Shallow embedding of the data-refresh/computation pipeline of `src/app.py`.
Python floats are modelled as exact rationals (`ℚ`); Python float division,
which raises `ZeroDivisionError` on a zero denominator, is modelled as an
`Option ℚ` (with `none` standing for the unhandled exception).  The fetcher
(`get_realtime_data`, lines 36-66) is modelled over an abstract response in
which each regex match and each `float(...)` conversion is an `Option`.
-/

namespace GoldApp

/-- Line 101 of `src/app.py`: `GRAMS_PER_OUNCE = 31.1035`. -/
def GRAMS_PER_OUNCE : ℚ := 311035 / 10000

/-- Python float division: raises `ZeroDivisionError` (modelled as `none`)
when the denominator is zero, otherwise the quotient. -/
def pydiv (a b : ℚ) : Option ℚ :=
  if b = 0 then none else some (a / b)

/-- Line 104 of `src/app.py`:
`intl_gold_cny_g = (xau_price * exchange_rate) / GRAMS_PER_OUNCE`.
The denominator is the nonzero constant, so this division never raises. -/
def intl_gold_cny_g (xau_price exchange_rate : ℚ) : ℚ :=
  (xau_price * exchange_rate) / GRAMS_PER_OUNCE

/-- Lines 107-108 of `src/app.py`, for a given already-converted cost:
`price_diff = ctf_price_input - intl_gold_cny_g` and
`premium_rate = (price_diff / intl_gold_cny_g) * 100`, written as the
total function on the branch where the division does not raise. -/
def premium_pct (intl ctf_price_input : ℚ) : ℚ :=
  let price_diff := ctf_price_input - intl
  (price_diff / intl) * 100

/-- The derived record of the calculator (spec section 3, `PremiumResult`):
the three numbers the code computes at lines 104-108 and hands to the
renderer. -/
structure PremiumResult where
  converted_cost : ℚ
  absolute_diff : ℚ
  percentage_diff : ℚ
deriving DecidableEq, Repr

/-- Lines 101-108 of `src/app.py`: the computation executed inside the
`if xau_price > 0` branch.  Returns `none` exactly when the division at
line 108 raises `ZeroDivisionError` (i.e. `intl_gold_cny_g = 0`). -/
def computePremium (xau_price exchange_rate ctf_price_input : ℚ) :
    Option PremiumResult :=
  let intl := intl_gold_cny_g xau_price exchange_rate
  let price_diff := ctf_price_input - intl
  match pydiv price_diff intl with
  | none => none
  | some q => some ⟨intl, price_diff, q * 100⟩

/-- The three premium bands of lines 137-143 of `src/app.py`:
`🔴 溢价极高` is `High`, `🟡 溢价适中` is `Moderate`, `🟢 溢价较低` is `Low`. -/
inductive Band where
  | Low : Band
  | Moderate : Band
  | High : Band
deriving DecidableEq, Repr

/-- Lines 138-143 of `src/app.py`:
`if premium_rate > 30: ... High  elif premium_rate > 20: ... Moderate
else: ... Low`. -/
def classify (premium_rate : ℚ) : Band :=
  if premium_rate > 30 then Band.High
  else if premium_rate > 20 then Band.Moderate
  else Band.Low

/-- Ordering of the bands, `Low ≤ Moderate ≤ High`, as a rank. -/
def Band.rank : Band → Nat
  | Band.Low => 0
  | Band.Moderate => 1
  | Band.High => 2

/-- Outcome of one run of the script body (lines 97-198): either the
computed metrics plus their band are rendered, or the `else` branch at
line 198 shows the "connecting" error and nothing is computed, or an
exception escapes the script (there is no handler around lines 99-146). -/
inductive PipelineOutput where
  | result : PremiumResult → Band → PipelineOutput
  | unavailable : PipelineOutput
  | crash : PipelineOutput
deriving DecidableEq, Repr

/-- Lines 97-146 and 197-198 of `src/app.py`: the script takes the fetched
pair, runs the calculator only under `if xau_price > 0`, classifies the
premium, and otherwise shows the unavailable message. -/
def runPipeline (fetched : ℚ × ℚ) (ctf_price_input : ℚ) : PipelineOutput :=
  if fetched.1 > 0 then
    match computePremium fetched.1 fetched.2 ctf_price_input with
    | some pr => PipelineOutput.result pr (classify pr.percentage_diff)
    | none => PipelineOutput.crash
  else PipelineOutput.unavailable

/-- The HTTP response body of lines 46-60 of `src/app.py`, abstracted to
what the parser inspects.  `xauFields` is the result of
`re.search(hq_str_hf_XAU pattern, text)` followed by `.split(',')`:
`none` when the regex does not match (so `.group(1)` raises
`AttributeError`), otherwise the list of comma-separated fields, each
field given as the result of Python `float(...)` on it (`none` for a
`ValueError`).  `rateFields` is the same for the `hq_str_fx_susdcny`
line. -/
structure Response where
  xauFields : Option (List (Option ℚ))
  rateFields : Option (List (Option ℚ))

/-- Lines 53-55 of `src/app.py`: `float(xau_str.split(',')[0])`.  `none`
when the regex fails, the index is out of range, or `float` raises. -/
def parse_xau (r : Response) : Option ℚ :=
  r.xauFields.bind fun fs => (fs.get? 0).bind id

/-- Lines 58-60 of `src/app.py`: `float(rate_str.split(',')[1])`.  Note
the field index is 1, so a currency string with no comma raises
`IndexError`. -/
def parse_rate (r : Response) : Option ℚ :=
  r.rateFields.bind fun fs => (fs.get? 1).bind id

/-- What `get_realtime_data` (lines 36-66) resolves to: the returned pair
and whether the `except` branch ran `st.error` (line 65).  The function
is total: `try/except Exception` catches every fetch-stage failure. -/
structure FetchOutcome where
  quote : ℚ × ℚ
  errorShown : Bool
deriving DecidableEq, Repr

/-- Lines 36-66 of `src/app.py`.  The argument is the response body of
`requests.get` at line 46, with `none` standing for a network failure or
timeout (the call raising).  Any raised exception — network, regex
mismatch, index error, or `float` failure — lands in the `except` branch,
which shows an error and returns `(0, 0)`.  (In the source the currency
line is only parsed after the gold line succeeds; when the gold line
fails, both orders give the same `(0, 0)` outcome.) -/
def get_realtime_data (body : Option Response) : FetchOutcome :=
  match body with
  | none => ⟨(0, 0), true⟩
  | some r =>
    match parse_xau r, parse_rate r with
    | some p, some e => ⟨(p, e), false⟩
    | _, _ => ⟨(0, 0), true⟩

/-- Lines 97-198 of `src/app.py` end to end: fetch, then run the guarded
computation/render block on the returned pair. -/
def runApp (body : Option Response) (ctf_price_input : ℚ) : PipelineOutput :=
  runPipeline (get_realtime_data body).quote ctf_price_input

/-- Modelled from the spec: the time-to-live cache is the streamlit
decorator `st.cache_data(ttl=30)` at line 35 of `src/app.py`, library
code not present in `src/`.  Spec section 4.1: the fetch result is
"cached for a configurable time-to-live (default 30 time units) so
repeated calls within the window return the cached Quote without a
network round trip"; "Cache invalidation is explicit (manual clear) or
automatic at time-to-live expiry".  A cache holds at most one entry:
the cached value and the time it was stored. -/
structure Cache (α : Type) where
  entry : Option (α × ℚ)

/-- Modelled from the spec: the default time-to-live, 30 time units
(`ttl=30` at line 35 of `src/app.py`). -/
def CACHE_TTL : ℚ := 30

/-- Modelled from the spec: one cached invocation of the fetch.  `net`
is the underlying network call as a function of the current time, `now`
the invocation time.  Returns the value, the new cache state, and
whether a network call was issued: an unexpired entry (age `< ttl`) is
returned without a call; otherwise the network is called and the cache
repopulated. -/
def cachedCall {α : Type} (ttl : ℚ) (net : ℚ → α) (now : ℚ) (c : Cache α) :
    α × Cache α × Bool :=
  match c.entry with
  | some (v, t) =>
    if now - t < ttl then (v, c, false)
    else
      let v2 := net now
      (v2, ⟨some (v2, now)⟩, true)
  | none =>
    let v := net now
    (v, ⟨some (v, now)⟩, true)

/-- Modelled from the spec: the manual clear button (lines 91-92 of
`src/app.py`, `st.cache_data.clear()`) empties the cache. -/
def cacheClear {α : Type} (_c : Cache α) : Cache α := ⟨none⟩

/-- C1: for every `unit_price > 0` and `exchange_rate > 0`, the converted
cost computed at line 104 equals `(unit_price * exchange_rate) /
grams_per_unit` with `grams_per_unit` fixed at `31.1035`, and it is
strictly positive. -/
theorem converted_cost_formula_and_positive (p e : ℚ) (hp : 0 < p) (he : 0 < e) :
    intl_gold_cny_g p e = (p * e) / GRAMS_PER_OUNCE ∧
    GRAMS_PER_OUNCE = 311035 / 10000 ∧
    0 < intl_gold_cny_g p e := by
  refine ⟨rfl, rfl, ?_⟩
  unfold intl_gold_cny_g
  exact div_pos (mul_pos hp he) (by norm_num [GRAMS_PER_OUNCE])

/-- Witness for C1 at `unit_price = 1`, `exchange_rate = 1`. -/
theorem converted_cost_formula_and_positive_witness :
    (0 : ℚ) < 1 ∧
    (intl_gold_cny_g 1 1 = (1 * 1) / GRAMS_PER_OUNCE ∧
      GRAMS_PER_OUNCE = 311035 / 10000 ∧ 0 < intl_gold_cny_g 1 1) :=
  ⟨by norm_num,
    converted_cost_formula_and_positive 1 1 (by norm_num) (by norm_num)⟩

/-- C2: whenever the calculator produces a result (lines 107-108), its
absolute difference is `reference_price - converted_cost` and its
percentage difference is `(absolute_diff / converted_cost) * 100`. -/
theorem premium_diff_and_percentage_formulas (p e r : ℚ) (pr : PremiumResult)
    (h : computePremium p e r = some pr) :
    pr.absolute_diff = r - pr.converted_cost ∧
    pr.percentage_diff = (pr.absolute_diff / pr.converted_cost) * 100 := by
  unfold computePremium pydiv at h
  by_cases hz : intl_gold_cny_g p e = 0
  · simp [hz] at h
  · simp only [hz, if_false, if_neg hz] at h
    cases h
    exact ⟨rfl, rfl⟩

/-- Witness for C2 at `unit_price = 31.1035`, `exchange_rate = 1`,
`reference_price = 2`, where the converted cost is exactly `1`. -/
theorem premium_diff_and_percentage_formulas_witness :
    (⟨1, 1, 100⟩ : PremiumResult).absolute_diff =
        2 - (⟨1, 1, 100⟩ : PremiumResult).converted_cost ∧
    (⟨1, 1, 100⟩ : PremiumResult).percentage_diff =
        ((⟨1, 1, 100⟩ : PremiumResult).absolute_diff /
          (⟨1, 1, 100⟩ : PremiumResult).converted_cost) * 100 :=
  premium_diff_and_percentage_formulas (311035 / 10000) 1 2 ⟨1, 1, 100⟩
    (by norm_num [computePremium, intl_gold_cny_g, GRAMS_PER_OUNCE, pydiv])

/-- C3 (code bug): the code does NOT re-check `converted_cost > 0` inside
the calculator.  With `unit_price = 2034.5 > 0` and `exchange_rate = 0`
the upstream guard `if xau_price > 0` passes, the converted cost is `0`,
and line 108 performs the division anyway, raising an unhandled
`ZeroDivisionError` (the `crash` outcome) instead of a handled
`DivisionError`/sentinel; with `exchange_rate = -1` the converted cost is
negative and the division is still performed, yielding a result. -/
theorem division_guard_missing_crash :
    (0 : ℚ) < 4069 / 2 ∧
    intl_gold_cny_g (4069 / 2) 0 ≤ 0 ∧
    runPipeline (4069 / 2, 0) 736 = PipelineOutput.crash ∧
    ∃ pr, computePremium (4069 / 2) (-1) 736 = some pr ∧ pr.converted_cost < 0 := by
  refine ⟨by norm_num, by norm_num [intl_gold_cny_g, GRAMS_PER_OUNCE], ?_, ?_⟩
  · norm_num [runPipeline, computePremium, intl_gold_cny_g, GRAMS_PER_OUNCE, pydiv]
  · refine ⟨⟨-(4069000 / 62207), 49853352 / 62207, -(24926676 / 20345)⟩, ?_, by norm_num⟩
    norm_num [computePremium, intl_gold_cny_g, GRAMS_PER_OUNCE, pydiv]

/-- C4: a fetched pair whose unit price is not strictly positive (in
particular `unit_price = 0`) never reaches the calculator: the script
takes the `else` branch at lines 197-198 and produces no result. -/
theorem nonpositive_price_never_reaches_compute (p e r : ℚ) (hp : ¬ 0 < p) :
    runPipeline (p, e) r = PipelineOutput.unavailable := by
  simp [runPipeline, hp]

/-- Witness for C4 at `unit_price = 0`. -/
theorem nonpositive_price_never_reaches_compute_witness :
    runPipeline ((0 : ℚ), 71534 / 10000) 736 = PipelineOutput.unavailable :=
  nonpositive_price_never_reaches_compute 0 (71534 / 10000) 736 (by norm_num)

/-- C5: every fetch-stage failure — the network call raising (`body =
none`), or either field failing to parse — resolves to the sentinel
outcome `(0, 0)` with the error message shown (line 65), no exception
escapes (`get_realtime_data` is total), and the pipeline produces no
`PremiumResult`: the run ends in the `unavailable` state for every
reference price. -/
theorem fetch_failure_resolves_unavailable (body : Option Response)
    (h : body = none ∨
      ∃ r, body = some r ∧ (parse_xau r = none ∨ parse_rate r = none)) :
    (get_realtime_data body).quote = (0, 0) ∧
    (get_realtime_data body).errorShown = true ∧
    ∀ ref, runApp body ref = PipelineOutput.unavailable := by
  have hq : get_realtime_data body = ⟨(0, 0), true⟩ := by
    rcases h with rfl | ⟨r, rfl, hr⟩
    · rfl
    · rcases hr with hx | hx
      · simp [get_realtime_data, hx]
      · cases hpx : parse_xau r <;> simp [get_realtime_data, hpx, hx]
  refine ⟨by rw [hq], by rw [hq], fun ref => ?_⟩
  simp [runApp, hq, runPipeline]

/-- Witness for C5: a response whose currency line is missing entirely
(the regex for `hq_str_fx_susdcny` has no match), while the gold line
parses to `2034.5`. -/
theorem fetch_failure_resolves_unavailable_witness :
    (get_realtime_data (some ⟨some [some (4069 / 2)], none⟩)).quote = (0, 0) ∧
    (get_realtime_data (some ⟨some [some (4069 / 2)], none⟩)).errorShown = true ∧
    runApp (some ⟨some [some (4069 / 2)], none⟩) 736 = PipelineOutput.unavailable :=
  have h := fetch_failure_resolves_unavailable (some ⟨some [some (4069 / 2)], none⟩)
    (Or.inr ⟨_, rfl, Or.inr rfl⟩)
  ⟨h.1, h.2.1, h.2.2 736⟩

/-- C6: the banding of lines 138-143 assigns `High` exactly when the
premium rate exceeds 30, `Moderate` exactly when it exceeds 20 but not
30, and `Low` exactly otherwise; every rate lands in exactly one of the
three bands. -/
theorem classify_band_characterization (p : ℚ) :
    (classify p = Band.High ↔ 30 < p) ∧
    (classify p = Band.Moderate ↔ (20 < p ∧ ¬ 30 < p)) ∧
    (classify p = Band.Low ↔ ¬ 20 < p) := by
  unfold classify
  split_ifs with h1 h2 <;> refine ⟨?_, ?_, ?_⟩
  all_goals simp_all
  all_goals linarith

/-- C7: for a fixed positive converted cost, the band computed from the
premium formula of lines 107-108 is monotone in the reference price
under the ordering `Low ≤ Moderate ≤ High`. -/
theorem band_monotone_in_reference_price (c r1 r2 : ℚ)
    (hc : 0 < c) (h12 : r1 ≤ r2) :
    Band.rank (classify (premium_pct c r1)) ≤
      Band.rank (classify (premium_pct c r2)) := by
  have hmono : premium_pct c r1 ≤ premium_pct c r2 := by
    unfold premium_pct
    have hdiv : (r1 - c) / c ≤ (r2 - c) / c :=
      (div_le_div_iff_of_pos_right hc).mpr (by linarith)
    have := mul_le_mul_of_nonneg_right hdiv (by norm_num : (0 : ℚ) ≤ 100)
    simpa using this
  unfold classify
  split_ifs <;> simp [Band.rank] <;> linarith

/-- Witness for C7 at `converted_cost = 1`, references `1 ≤ 2`. -/
theorem band_monotone_in_reference_price_witness :
    (0 : ℚ) < 1 ∧ (1 : ℚ) ≤ 2 ∧
    Band.rank (classify (premium_pct 1 1)) ≤
      Band.rank (classify (premium_pct 1 2)) :=
  ⟨by norm_num, by norm_num,
    band_monotone_in_reference_price 1 1 2 (by norm_num) (by norm_num)⟩

/-- C8 counterexample: at `unit_price = 2034.50`, `exchange_rate =
7.1534`, `reference_price = 736.0` the code yields `converted_cost =
145535923/311035 ≈ 467.9085`, not `≈ 467.80`; the three values quoted by
the claim (`467.80`, `268.20`, `57.34`) are each off by more than `0.01`
(read at the two-decimal precision they are quoted in). -/
theorem example_row_spec_values_false :
    ¬ (|intl_gold_cny_g (4069 / 2) (35767 / 5000) - 4678 / 10| < 1 / 100 ∧
       |(736 - intl_gold_cny_g (4069 / 2) (35767 / 5000)) - 2682 / 10| < 1 / 100 ∧
       |premium_pct (intl_gold_cny_g (4069 / 2) (35767 / 5000)) 736 - 5734 / 100|
         < 1 / 100) := by
  intro h
  have h1 := h.1
  rw [abs_sub_lt_iff] at h1
  norm_num [intl_gold_cny_g, GRAMS_PER_OUNCE] at h1

/-- C8 amended: at `unit_price = 2034.50`, `exchange_rate = 7.1534`,
`reference_price = 736.0` the computation yields `converted_cost ≈
467.91`, `absolute_diff ≈ 268.09`, `percentage_diff ≈ 57.30` (each
within `0.01`), and the result is classified `High`. -/
theorem example_row_amended_values :
    computePremium (4069 / 2) (35767 / 5000) 736 =
      some ⟨145535923 / 311035, 83385837 / 311035, 8338583700 / 145535923⟩ ∧
    |(145535923 / 311035 : ℚ) - 46791 / 100| < 1 / 100 ∧
    |(83385837 / 311035 : ℚ) - 26809 / 100| < 1 / 100 ∧
    |(8338583700 / 145535923 : ℚ) - 5730 / 100| < 1 / 100 ∧
    classify (8338583700 / 145535923) = Band.High ∧
    runPipeline (4069 / 2, 35767 / 5000) 736 =
      PipelineOutput.result
        ⟨145535923 / 311035, 83385837 / 311035, 8338583700 / 145535923⟩
        Band.High := by
  refine ⟨?_, ?_, ?_, ?_, ?_, ?_⟩
  · norm_num [computePremium, intl_gold_cny_g, GRAMS_PER_OUNCE, pydiv]
  · rw [abs_sub_lt_iff]; norm_num
  · rw [abs_sub_lt_iff]; norm_num
  · rw [abs_sub_lt_iff]; norm_num
  · norm_num [classify]
  · norm_num [runPipeline, computePremium, intl_gold_cny_g, GRAMS_PER_OUNCE,
      pydiv, classify]

/-- C9 (cache modelled from the spec): starting from an empty cache, a
fetch at time `t1` issues a network call; a second fetch at time `t2`
with `t2 - t1 < 30` issues no call and returns the cached value, so the
pair issues exactly one call; a fetch at time `t3` with `t3 - t1 ≥ 30`
(after expiry) issues a new call. -/
theorem cache_single_call_within_ttl {α : Type} (net : ℚ → α) (t1 t2 t3 : ℚ)
    (h12 : t2 - t1 < CACHE_TTL) (h3 : CACHE_TTL ≤ t3 - t1) :
    (cachedCall CACHE_TTL net t1 ⟨none⟩).2.2 = true ∧
    (cachedCall CACHE_TTL net t2 (cachedCall CACHE_TTL net t1 ⟨none⟩).2.1).2.2
      = false ∧
    (cachedCall CACHE_TTL net t2 (cachedCall CACHE_TTL net t1 ⟨none⟩).2.1).1
      = (cachedCall CACHE_TTL net t1 ⟨none⟩).1 ∧
    (cachedCall CACHE_TTL net t3 (cachedCall CACHE_TTL net t1 ⟨none⟩).2.1).2.2
      = true := by
  have hfirst : cachedCall CACHE_TTL net t1 ⟨none⟩ =
      (net t1, ⟨some (net t1, t1)⟩, true) := rfl
  rw [hfirst]
  refine ⟨rfl, ?_, ?_, ?_⟩
  · simp [cachedCall, if_pos h12]
  · simp [cachedCall, if_pos h12]
  · simp [cachedCall, if_neg (not_lt.mpr h3)]

/-- Witness for C9 with `t1 = 0`, `t2 = 10`, `t3 = 40` and the network
call returning the time it was made. -/
theorem cache_single_call_within_ttl_witness :
    (cachedCall CACHE_TTL (fun t => t) 0 ⟨none⟩).2.2 = true ∧
    (cachedCall CACHE_TTL (fun t => t) 10
        (cachedCall CACHE_TTL (fun t => t) 0 ⟨none⟩).2.1).2.2 = false ∧
    (cachedCall CACHE_TTL (fun t => t) 10
        (cachedCall CACHE_TTL (fun t => t) 0 ⟨none⟩).2.1).1
      = (cachedCall CACHE_TTL (fun t => t) 0 ⟨none⟩).1 ∧
    (cachedCall CACHE_TTL (fun t => t) 40
        (cachedCall CACHE_TTL (fun t => t) 0 ⟨none⟩).2.1).2.2 = true :=
  cache_single_call_within_ttl (fun t => t) 0 10 40
    (by norm_num [CACHE_TTL]) (by norm_num [CACHE_TTL])

/-- C10: the fetcher never returns a partially-parsed result: either both
fields parse and both parsed values are returned, or the sentinel pair
`(0, 0)` is returned; in particular, when the currency field fails to
parse, an already-parsed gold price is discarded. -/
theorem fetch_all_or_nothing (r : Response) :
    ((∃ p e, parse_xau r = some p ∧ parse_rate r = some e ∧
        get_realtime_data (some r) = ⟨(p, e), false⟩) ∨
      get_realtime_data (some r) = ⟨(0, 0), true⟩) ∧
    (parse_rate r = none → get_realtime_data (some r) = ⟨(0, 0), true⟩) := by
  constructor
  · cases hx : parse_xau r with
    | none => exact Or.inr (by simp [get_realtime_data, hx])
    | some p =>
      cases he : parse_rate r with
      | none => exact Or.inr (by simp [get_realtime_data, hx, he])
      | some e => exact Or.inl ⟨p, e, rfl, rfl, by simp [get_realtime_data, hx, he]⟩
  · intro he
    cases hx : parse_xau r <;> simp [get_realtime_data, hx, he]

/-- Witness for C10: the gold line parses to `2034.5` but the currency
line has a single field, so `rate_list[1]` fails; the parsed gold price
is discarded and the sentinel is returned. -/
theorem fetch_all_or_nothing_witness :
    parse_xau ⟨some [some (4069 / 2)], some [some 7]⟩ = some (4069 / 2) ∧
    parse_rate ⟨some [some (4069 / 2)], some [some 7]⟩ = none ∧
    get_realtime_data (some ⟨some [some (4069 / 2)], some [some 7]⟩)
      = ⟨(0, 0), true⟩ :=
  ⟨rfl, rfl, (fetch_all_or_nothing ⟨some [some (4069 / 2)], some [some 7]⟩).2 rfl⟩

end GoldApp
